import Mathlib

/-!
Verification of the safe-zone access-control gate of the MyPC-MCP server.

The development shallowly embeds the path-containment and permission logic of
`src/tools/files.py` and `src/main.py`:

* `normpath`, `abspath`, `normcase` model `posixpath.normpath` / `os.path.abspath`
  / `os.path.normcase`.  The process working directory (Python's `os.getcwd()`,
  consulted by `os.path.abspath` for relative inputs) is passed explicitly as the
  `cwd` argument.  Platform case folding is modelled as a character map `fold`
  (the identity on POSIX, lowercasing on Windows); the path separator is `/`.
* `is_in_safe_zone` embeds `files.py`'s inner containment check,
  `is_safe_path` embeds `main.py`'s module-level variant (with the
  configuration's falsy-default for `safe_zones` and `expanduser` rendered via a
  `home` argument).
* Each mutating file tool's pre-operation check chain is embedded as a function
  into `Gate`: `Gate.denied` is a safe-zone denial returned before the disk is
  touched, `Gate.failed` is a non-permission early error, and `Gate.proceed`
  means control reaches the actual filesystem operation (the `try` block).
  The filesystem itself is abstracted as boolean predicates in `FS`.
* `serve_download`, `combined_route` and `rewrite_host` embed the HTTP-facing
  logic of `CombinedApp.__call__` and `HostHeaderMiddleware` from `src/main.py`.
-/

namespace MyPC

/-! ### Character-list primitives (model of the Python `str` operations used) -/

/-- `leadsChars p s` is true when `p` is a leading segment of `s`
(model of Python `str.startswith` on character lists). -/
def leadsChars : List Char → List Char → Bool
  | [], _ => true
  | _ :: _, [] => false
  | a :: as, b :: bs => a == b && leadsChars as bs

/-- `s.startswith(p)`. -/
def strStartsWith (s p : String) : Bool := leadsChars p.data s.data

/-- `s.endswith(p)`. -/
def strEndsWith (s p : String) : Bool := leadsChars p.data.reverse s.data.reverse

/-- `s[n:]` (drop the first `n` characters). -/
def strDrop (s : String) (n : Nat) : String := String.mk (s.data.drop n)

/-- Split a character list on the single character `c`
(model of Python `str.split(sep)` with a one-character separator). -/
def splitOnChar (c : Char) : List Char → List (List Char)
  | [] => [[]]
  | x :: xs =>
    match splitOnChar c xs with
    | [] => [[]]
    | y :: ys => if x == c then [] :: y :: ys else (x :: y) :: ys

/-- `path.split('/')`. -/
def splitSlash (s : String) : List String := (splitOnChar '/' s.data).map String.mk

/-- `sep.join(parts)`. -/
def strJoin (sep : String) : List String → String
  | [] => ""
  | [x] => x
  | x :: y :: ys => x ++ sep ++ strJoin sep (y :: ys)

/-! ### POSIX path model (`posixpath`) -/

/-- `posixpath.isabs`. -/
def isabs (p : String) : Bool := strStartsWith p "/"

/-- `posixpath.join(a, b)` (two-argument form). -/
def pathJoin (a b : String) : String :=
  if strStartsWith b "/" then b
  else if a == "" || strEndsWith a "/" then a ++ b
  else a ++ "/" ++ b

/-- The `initial_slashes` count of `posixpath.normpath`: 2 for exactly two
leading slashes, 1 for any other leading slash, 0 otherwise. -/
def normpathSlashes (path : String) : Nat :=
  if strStartsWith path "//" && !strStartsWith path "///" then 2
  else if strStartsWith path "/" then 1 else 0

/-- The component-processing loop body of `posixpath.normpath`: skip empty and
`.` components, append ordinary components (and `..` when it cannot be
resolved), otherwise pop the previous component. -/
def normpathFold (initialSlashes : Nat) (acc : List String) (comp : String) : List String :=
  if comp == "" || comp == "." then acc
  else if !(comp == "..") || (initialSlashes == 0 && acc.isEmpty) ||
      (!acc.isEmpty && acc.getLast? == some "..") then
    acc ++ [comp]
  else if !acc.isEmpty then acc.dropLast
  else acc

/-- `posixpath.normpath`. -/
def normpath (path : String) : String :=
  if path == "" then "."
  else
    let initialSlashes := normpathSlashes path
    let newComps := (splitSlash path).foldl (normpathFold initialSlashes) []
    let res := String.mk (List.replicate initialSlashes '/') ++ strJoin "/" newComps
    if res == "" then "." else res

/-- `os.path.abspath`, with the process working directory made explicit. -/
def abspath (cwd path : String) : String :=
  if isabs path then normpath path else normpath (pathJoin cwd path)

/-- `os.path.normcase`: platform case folding, modelled as a character map
(identity on POSIX, `Char.toLower` on case-insensitive filesystems). -/
def normcase (fold : Char → Char) (s : String) : String := String.mk (s.data.map fold)

/-- Appending `os.sep` when absent: the separator-terminated form of a zone used
only for the containment prefix test. -/
def withSep (z : String) : String := if strEndsWith z "/" then z else z ++ "/"

/-! ### Filesystem abstraction -/

/-- The observable filesystem state consulted by the tools:
`os.path.exists`, `os.path.isfile`, `os.path.isdir`. -/
structure FS where
  exists_ : String → Bool
  isfile : String → Bool
  isdir : String → Bool

/-- A filesystem in which every path exists as a file. -/
def fsAll : FS := ⟨fun _ => true, fun _ => true, fun _ => false⟩

/-- A filesystem in which no path exists. -/
def fsNone : FS := ⟨fun _ => false, fun _ => false, fun _ => false⟩

/-- A filesystem holding exactly the file `/etc/passwd`. -/
def fsEtcPasswd : FS :=
  ⟨fun p => p == "/etc/passwd", fun p => p == "/etc/passwd", fun _ => false⟩

/-- A filesystem holding exactly the file `/zone/a b.txt`. -/
def fsZoneFile : FS :=
  ⟨fun p => p == "/zone/a b.txt", fun p => p == "/zone/a b.txt", fun _ => false⟩

/-! ### `src/tools/files.py`: containment check and tool gates -/

/-- `is_in_safe_zone` from `src/tools/files.py` (lines 59-85): the path and each
zone are made absolute, case-normalized, and the path is contained when it
equals a zone or extends a zone past a separator boundary. -/
def is_in_safe_zone (fold : Char → Char) (cwd : String) (zones : List String)
    (path : String) : Bool :=
  let normPath := normcase fold (abspath cwd path)
  zones.any (fun zone =>
    let normZone := normcase fold (abspath cwd zone)
    normPath == normZone || strStartsWith normPath (withSep normZone))

/-- `get_safe_zones_str` from `src/tools/files.py` (lines 87-89). -/
def get_safe_zones_str (zones : List String) : String :=
  strJoin "\n" (zones.map (fun z => "  - " ++ z))

/-- Outcome of a tool's pre-operation check chain: a safe-zone denial, a
non-permission early error, or control reaching the filesystem operation. -/
inductive Gate where
  | denied (msg : String)
  | failed (msg : String)
  | proceed
deriving DecidableEq, Repr

/-- `DEFAULT_WORKSPACE` from `src/tools/files.py`. -/
def DEFAULT_WORKSPACE : String := "D:\\ALICE"

/-- `edit_file`'s check chain (`src/tools/files.py` lines 407-411):
safe zone first, then existence. -/
def edit_file_check (fold : Char → Char) (cwd : String) (zones : List String)
    (fs : FS) (path : String) : Gate :=
  if !is_in_safe_zone fold cwd zones path then
    Gate.denied ("Error: Edit operation denied. Path must be in a safe zone.\n\nSafe Zones:\n"
      ++ get_safe_zones_str zones)
  else if !fs.exists_ path then
    Gate.failed ("Error: File does not exist: " ++ path)
  else Gate.proceed

/-- The target path `write_file` actually writes: relative paths are joined
under the default workspace (`src/tools/files.py` lines 457-459). -/
def write_target (path : String) : String :=
  if isabs path then path else pathJoin DEFAULT_WORKSPACE path

/-- `write_file`'s check chain (`src/tools/files.py` lines 457-462). -/
def write_file_check (fold : Char → Char) (cwd : String) (zones : List String)
    (path : String) : Gate :=
  let path := write_target path
  if !is_in_safe_zone fold cwd zones path then
    Gate.denied ("Error: Write operation denied. Path must be in a safe zone.\n\nSafe Zones:\n"
      ++ get_safe_zones_str zones)
  else Gate.proceed

/-- `move_file`'s check chain (`src/tools/files.py` lines 489-496):
source zone, destination zone, then source existence. -/
def move_file_check (fold : Char → Char) (cwd : String) (zones : List String)
    (fs : FS) (source destination : String) : Gate :=
  if !is_in_safe_zone fold cwd zones source then
    Gate.denied ("Error: Cannot move from outside safe zone.\nSource: " ++ source
      ++ "\n\nSafe Zones:\n" ++ get_safe_zones_str zones)
  else if !is_in_safe_zone fold cwd zones destination then
    Gate.denied ("Error: Cannot move to outside safe zone.\nDestination: " ++ destination
      ++ "\n\nSafe Zones:\n" ++ get_safe_zones_str zones)
  else if !fs.exists_ source then
    Gate.failed ("Error: Source does not exist: " ++ source)
  else Gate.proceed

/-- `delete_file`'s check chain (`src/tools/files.py` lines 517-521):
safe zone first, then existence. -/
def delete_file_check (fold : Char → Char) (cwd : String) (zones : List String)
    (fs : FS) (path : String) : Gate :=
  if !is_in_safe_zone fold cwd zones path then
    Gate.denied ("Error: Delete operation denied. Path must be in a safe zone.\n\nSafe Zones:\n"
      ++ get_safe_zones_str zones)
  else if !fs.exists_ path then
    Gate.failed ("Error: Path does not exist: " ++ path)
  else Gate.proceed

/-- `create_directory`'s check chain (`src/tools/files.py` lines 555-560). -/
def create_directory_check (fold : Char → Char) (cwd : String) (zones : List String)
    (path : String) : Gate :=
  let path := if isabs path then path else pathJoin DEFAULT_WORKSPACE path
  if !is_in_safe_zone fold cwd zones path then
    Gate.denied ("Error: Create directory denied. Path must be in a safe zone.\n\nSafe Zones:\n"
      ++ get_safe_zones_str zones)
  else Gate.proceed

/-- `copy_file`'s check chain (`src/tools/files.py` lines 585-589):
only the destination's zone membership is checked, then source existence. -/
def copy_file_check (fold : Char → Char) (cwd : String) (zones : List String)
    (fs : FS) (source destination : String) : Gate :=
  if !is_in_safe_zone fold cwd zones destination then
    Gate.denied ("Error: Copy destination must be in a safe zone.\nDestination: " ++ destination
      ++ "\n\nSafe Zones:\n" ++ get_safe_zones_str zones)
  else if !fs.exists_ source then
    Gate.failed ("Error: Source does not exist: " ++ source)
  else Gate.proceed

/-! ### `urllib.parse.quote` and `get_download_url` -/

/-- Bytes left unescaped by `urllib.parse.quote` with its default `safe='/'`:
ASCII letters, digits, `_ . - ~` and `/`. -/
def alwaysSafeByte (b : Nat) : Bool :=
  (65 ≤ b && b ≤ 90) || (97 ≤ b && b ≤ 122) || (48 ≤ b && b ≤ 57) ||
  b == 95 || b == 46 || b == 45 || b == 126 || b == 47

/-- Uppercase hexadecimal digit (Python's `quote` uses uppercase). -/
def hexDigit (n : Nat) : Char :=
  if n < 10 then Char.ofNat (48 + n) else Char.ofNat (55 + n)

/-- UTF-8 encoding of one character, as byte values. -/
def utf8Bytes (c : Char) : List Nat :=
  let n := c.toNat
  if n < 128 then [n]
  else if n < 2048 then [192 + n / 64, 128 + n % 64]
  else if n < 65536 then [224 + n / 4096, 128 + (n / 64) % 64, 128 + n % 64]
  else [240 + n / 262144, 128 + (n / 4096) % 64, 128 + (n / 64) % 64, 128 + n % 64]

/-- `urllib.parse.quote(s)` with the default `safe='/'`. -/
def quote (s : String) : String :=
  String.mk ((s.data.flatMap utf8Bytes).flatMap (fun b =>
    if alwaysSafeByte b then [Char.ofNat b]
    else ['%', hexDigit (b / 16), hexDigit (b % 16)]))

/-- `get_download_url` from `src/tools/files.py` (lines 358-387): existence,
then file-ness, then zone membership, then the URL. -/
def get_download_url (fold : Char → Char) (cwd : String) (zones : List String)
    (base_url : String) (fs : FS) (path : String) : String :=
  if !fs.exists_ path then "Error: File does not exist: " ++ path
  else if !fs.isfile path then "Error: Not a file: " ++ path
  else if !is_in_safe_zone fold cwd zones path then
    "Error: Download denied. File must be in a safe zone.\n\nSafe Zones:\n"
      ++ get_safe_zones_str zones
  else "Download URL: " ++ base_url ++ "/download?path=" ++ quote path

/-! ### Tool registration surface of `register_file_tools` -/

/-- One tool registered on the MCP server by `register_file_tools` via an
`mcp.tool` decoration; `mutating` marks the tools in the WRITE/COPY sections
(those guarded by the safe-zone gate). -/
structure RegisteredTool where
  name : String
  mutating : Bool
deriving DecidableEq, Repr

/-- The `mcp.tool` decorations appearing in `register_file_tools`
(`src/tools/files.py`), in source order.  `write_file` (lines 442-475) carries
no decoration and therefore contributes no entry. -/
def registered_file_tools : List RegisteredTool :=
  [⟨"MyPC-get_workspace", false⟩,
   ⟨"MyPC-list_directory", false⟩,
   ⟨"MyPC-read_file", false⟩,
   ⟨"MyPC-get_file_info", false⟩,
   ⟨"MyPC-list_safe_zones", false⟩,
   ⟨"MyPC-get_download_url", false⟩,
   ⟨"MyPC-edit_file", true⟩,
   ⟨"MyPC-move_file", true⟩,
   ⟨"MyPC-delete_file", true⟩,
   ⟨"MyPC-create_directory", true⟩,
   ⟨"MyPC-copy_file", true⟩]

/-! ### `src/main.py`: `is_safe_path`, download serving, routing -/

/-- The default zones used when `safe_zones` is absent or empty:
`expanduser` on `~/Documents`, `~/Downloads`, `~/Desktop`. -/
def default_zones (home : String) : List String :=
  [home ++ "/Documents", home ++ "/Downloads", home ++ "/Desktop"]

/-- `is_safe_path` from `src/main.py` (lines 68-103).  `safeZones` is the
`SAFE_ZONES` global (`none` when the key is missing); Python's falsy test sends
both `None` and `[]` to the defaults.  The zone list is made absolute once at
selection and again inside the loop, as in the source. -/
def is_safe_path (fold : Char → Char) (home cwd : String)
    (safeZones : Option (List String)) (path : String) : Bool :=
  let zones := (match safeZones with
    | none => default_zones home
    | some [] => default_zones home
    | some zs => zs).map (abspath cwd)
  let normPath := normcase fold (abspath cwd path)
  zones.any (fun zone =>
    let normZone := normcase fold (abspath cwd zone)
    normPath == normZone || strStartsWith normPath (withSep normZone))

/-- `posixpath.basename`. -/
def basename (p : String) : String :=
  match (splitOnChar '/' p.data).getLast? with
  | some l => String.mk l
  | none => ""

/-- Outcome of the `/download` handler: HTTP status plus the
`Content-Disposition` filename when a file is served. -/
structure ServeResult where
  status : Nat
  filename : Option String
deriving DecidableEq, Repr

/-- The `/download` branch of `CombinedApp.__call__` (`src/main.py` lines
163-189).  `pathParam` is the first value of the `path` query parameter as
produced by `parse_qs` (`none` when absent). -/
def serve_download (fold : Char → Char) (home cwd : String)
    (safeZones : Option (List String)) (fs : FS) (pathParam : Option String) : ServeResult :=
  match pathParam with
  | none => ⟨400, none⟩
  | some fp =>
    if !fs.exists_ fp then ⟨404, none⟩
    else if !is_safe_path fold home cwd safeZones fp then ⟨403, none⟩
    else ⟨200, some (basename fp)⟩

/-- Where `CombinedApp.__call__` sends a request. -/
inductive Route where
  | static (path : String)
  | download
  | mcp
deriving DecidableEq, Repr

/-- The dispatch of `CombinedApp.__call__` (`src/main.py` lines 153-193):
`path.startswith("/screenshots")` → static serving with the 12-character
literal removed; exact `/download` → the download handler; otherwise the MCP
transport. -/
def combined_route (path : String) : Route :=
  if strStartsWith path "/screenshots" then Route.static (strDrop path 12)
  else if path == "/download" then Route.download
  else Route.mcp

/-- The routing rule as stated by the spec (§4.5): only paths with the
separator-terminated `/screenshots/` in front go to static serving, with that
whole segment stripped.  Kept for comparison with `combined_route`. -/
def spec_route (path : String) : Route :=
  if strStartsWith path "/screenshots/" then Route.static (strDrop path 13)
  else if path == "/download" then Route.download
  else Route.mcp

/-- `HostHeaderMiddleware.__call__` (`src/main.py` lines 130-142): every
`host` header is replaced by `("host", "localhost:9999")`, all other pairs
are kept in place. -/
def rewrite_host (headers : List (String × String)) : List (String × String) :=
  headers.map (fun kv => if kv.1 == "host" then ("host", "localhost:9999") else kv)

/-! ### Helper lemmas -/

theorem data_mk (l : List Char) : (String.mk l).data = l := rfl

theorem data_append (s t : String) : (s ++ t).data = s.data ++ t.data := rfl

theorem strAppendNil (s : String) : s ++ "" = s := by
  cases s with
  | mk l => exact congrArg String.mk (List.append_nil l)

theorem splitOnChar_ne_nil (c : Char) (l : List Char) : splitOnChar c l ≠ [] := by
  induction l with
  | nil => simp [splitOnChar]
  | cons x xs ih =>
    rw [splitOnChar]
    rcases hs : splitOnChar c xs with _ | ⟨y, ys⟩
    · simp
    · dsimp only
      split <;> simp

theorem splitOnChar_append_sep (c : Char) (l : List Char) :
    splitOnChar c (l ++ [c]) = splitOnChar c l ++ [[]] := by
  induction l with
  | nil => simp [splitOnChar]
  | cons x xs ih =>
    rw [List.cons_append, splitOnChar, ih, splitOnChar]
    rcases hs : splitOnChar c xs with _ | ⟨y, ys⟩
    · exact absurd hs (splitOnChar_ne_nil c xs)
    · dsimp only [List.cons_append]
      split <;> simp

theorem splitSlash_append_sep (s : String) :
    splitSlash (s ++ "/") = splitSlash s ++ [""] := by
  cases s with
  | mk l =>
    show (splitOnChar '/' (l ++ ['/'])).map String.mk = _
    rw [splitOnChar_append_sep]
    simp [splitSlash]

theorem leadsChars_slash_append (bs : List Char) (h : bs ≠ []) :
    leadsChars ['/'] (bs ++ ['/']) = leadsChars ['/'] bs := by
  rcases bs with _ | ⟨c, t⟩
  · exact absurd rfl h
  · simp [leadsChars]

theorem leadsChars_two_slash_append (bs : List Char) (h : bs.getLast? ≠ some '/') :
    leadsChars ['/', '/'] (bs ++ ['/']) = leadsChars ['/', '/'] bs := by
  rcases bs with _ | ⟨c, t⟩
  · simp [leadsChars]
  · rcases t with _ | ⟨d, t'⟩
    · have hc : ('/' == c) = false := by
        rcases hcc : ('/' == c) with _ | _
        · rfl
        · exact absurd (by rw [← (beq_iff_eq.mp hcc)]; rfl) h
      simp [leadsChars, hc]
    · simp [leadsChars]

theorem ends_false_getLast (l : List Char) (h : leadsChars ['/'] l.reverse = false) :
    l.getLast? ≠ some '/' := by
  intro hl
  rcases hr : l.reverse with _ | ⟨a, as⟩
  · have : l = [] := by simpa using congrArg List.reverse hr
    rw [this] at hl
    simp at hl
  · have ha : l.getLast? = some a := by rw [← List.head?_reverse, hr]; rfl
    rw [hl] at ha
    injection ha with ha
    rw [hr, ← ha] at h
    simp [leadsChars] at h

theorem normpathSlashes_append_sep (b : Char) (bs : List Char)
    (hb : b = '/') (hbs : bs ≠ []) (hlast : bs.getLast? ≠ some '/') :
    normpathSlashes (String.mk (b :: bs) ++ "/") = normpathSlashes (String.mk (b :: bs)) := by
  subst hb
  have e1 : strStartsWith (String.mk ('/' :: bs) ++ "/") "/" =
      strStartsWith (String.mk ('/' :: bs)) "/" := by
    show leadsChars ['/'] ('/' :: bs ++ ['/']) = leadsChars ['/'] ('/' :: bs)
    simp [leadsChars]
  have e2 : strStartsWith (String.mk ('/' :: bs) ++ "/") "//" =
      strStartsWith (String.mk ('/' :: bs)) "//" := by
    show leadsChars ['/', '/'] ('/' :: bs ++ ['/']) = leadsChars ['/', '/'] ('/' :: bs)
    simp only [leadsChars]
    exact congrArg (fun x => '/' == '/' && x) (leadsChars_slash_append bs hbs)
  have e3 : strStartsWith (String.mk ('/' :: bs) ++ "/") "///" =
      strStartsWith (String.mk ('/' :: bs)) "///" := by
    show leadsChars ['/', '/', '/'] ('/' :: bs ++ ['/']) = leadsChars ['/', '/', '/'] ('/' :: bs)
    simp only [leadsChars]
    exact congrArg (fun x => '/' == '/' && x) (leadsChars_two_slash_append bs hlast)
  simp only [normpathSlashes, e1, e2, e3]

theorem normpath_append_sep (s : String) (h1 : isabs s = true) (h2 : strEndsWith s "/" = false) :
    normpath (s ++ "/") = normpath s := by
  obtain ⟨l⟩ := s
  rcases l with _ | ⟨b, bs⟩
  · exact absurd h1 (by simp [isabs, strStartsWith, leadsChars])
  · have hb : b = '/' := by
      have h1' : leadsChars ['/'] (b :: bs) = true := h1
      simp [leadsChars] at h1'
      exact h1'.symm
    have hlast : (b :: bs).getLast? ≠ some '/' :=
      ends_false_getLast (b :: bs) h2
    have hbs : bs ≠ [] := by
      intro he
      subst he hb
      simp at hlast
    have hlast' : bs.getLast? ≠ some '/' := by
      rcases bs with _ | ⟨c, t⟩
      · exact absurd rfl hbs
      · rwa [List.getLast?_cons_cons] at hlast
    have hne1 : ((String.mk (b :: bs) ++ "/") == "") = false := by
      apply beq_eq_false_iff_ne.mpr
      intro he
      have := congrArg String.data he
      simp [data_append] at this
    have hne2 : ((String.mk (b :: bs) : String) == "") = false := by
      apply beq_eq_false_iff_ne.mpr
      intro he
      have := congrArg String.data he
      simp at this
    have hsl := normpathSlashes_append_sep b bs hb hbs hlast'
    have hsp := splitSlash_append_sep (String.mk (b :: bs))
    have hfold : ∀ k acc, normpathFold k acc "" = acc := fun _ _ => rfl
    simp only [normpath, hne1, hne2, hsl, hsp, List.foldl_append, List.foldl_cons,
      List.foldl_nil, hfold, Bool.false_eq_true, if_false]

theorem abspath_empty (cwd : String) (h : isabs cwd = true) :
    abspath cwd "" = abspath cwd cwd := by
  have hne : (cwd == "") = false := by
    apply beq_eq_false_iff_ne.mpr
    intro he
    rw [he] at h
    exact absurd h (by simp [isabs, strStartsWith, leadsChars])
  have hj : pathJoin cwd "" = if strEndsWith cwd "/" then cwd else cwd ++ "/" := by
    rw [pathJoin]
    have : strStartsWith "" "/" = false := rfl
    rw [this]
    simp only [hne, Bool.false_or, Bool.false_eq_true, if_false]
    rcases he : strEndsWith cwd "/" with _ | _
    · simp only [Bool.false_eq_true, if_false]
      rw [strAppendNil]
    · simp only [if_true]
      rw [strAppendNil]
  have habs : abspath cwd "" = normpath (pathJoin cwd "") := by
    rw [abspath]
    have : isabs "" = false := rfl
    rw [this]
    simp
  rw [habs, hj, abspath, h]
  simp only [if_true]
  rcases he : strEndsWith cwd "/" with _ | _
  · simp only [Bool.false_eq_true, if_false]
    exact normpath_append_sep cwd h he
  · simp only [if_true]

/-! ### Claim theorems -/

/-- C1: the safe-zone containment check returns true iff the case-folded
absolute form of the path equals the case-folded absolute form of some zone, or
starts with that zone's separator-terminated case-folded absolute form;
`is_safe_path` with a configured zone list is the same check on the pre-made
absolute zones; with zones `["/home/alice/Documents"]` the colliding path
`/home/alice/Documents2/notes.txt` is not contained while the zone root itself
and a file inside the zone are. -/
theorem C1_containment :
    (∀ (fold : Char → Char) (cwd : String) (zones : List String) (path : String),
      is_in_safe_zone fold cwd zones path = true ↔
        ∃ z ∈ zones,
          normcase fold (abspath cwd path) = normcase fold (abspath cwd z) ∨
            strStartsWith (normcase fold (abspath cwd path))
              (withSep (normcase fold (abspath cwd z))) = true)
    ∧ (∀ (fold : Char → Char) (home cwd z : String) (zs : List String) (path : String),
      is_safe_path fold home cwd (some (z :: zs)) path =
        is_in_safe_zone fold cwd ((z :: zs).map (abspath cwd)) path)
    ∧ is_in_safe_zone id "/" ["/home/alice/Documents"] "/home/alice/Documents2/notes.txt" = false
    ∧ is_in_safe_zone id "/" ["/home/alice/Documents"] "/home/alice/Documents" = true
    ∧ is_in_safe_zone id "/" ["/home/alice/Documents"] "/home/alice/Documents/notes.txt" = true := by
  refine ⟨?_, ?_, by decide, by decide, by decide⟩
  · intro fold cwd zones path
    simp [is_in_safe_zone, List.any_eq_true, Bool.or_eq_true, beq_iff_eq]
  · intro fold home cwd z zs path
    simp [is_safe_path, is_in_safe_zone]

/-- C2: `copy_file` is gated on the destination alone — it returns the
safe-zone denial (naming the destination) exactly when the destination is
outside every zone, and reaches the copy exactly when the destination is in a
zone and the source exists, wherever the source lies; concretely, copying from
outside into a zone proceeds while copying from a zone to the outside is
denied. -/
theorem C2_copy_destination_only :
    (∀ (fold : Char → Char) (cwd : String) (zones : List String) (fs : FS)
      (source destination : String),
      copy_file_check fold cwd zones fs source destination =
          Gate.denied ("Error: Copy destination must be in a safe zone.\nDestination: "
            ++ destination ++ "\n\nSafe Zones:\n" ++ get_safe_zones_str zones) ↔
        is_in_safe_zone fold cwd zones destination = false)
    ∧ (∀ (fold : Char → Char) (cwd : String) (zones : List String) (fs : FS)
      (source destination : String),
      copy_file_check fold cwd zones fs source destination = Gate.proceed ↔
        (is_in_safe_zone fold cwd zones destination = true ∧ fs.exists_ source = true))
    ∧ copy_file_check id "/" ["/zone"] fsAll "/outside/file.txt" "/zone/file.txt" = Gate.proceed
    ∧ copy_file_check id "/" ["/zone"] fsAll "/zone/file.txt" "/outside/file.txt" =
        Gate.denied ("Error: Copy destination must be in a safe zone.\nDestination: /outside/file.txt\n\nSafe Zones:\n  - /zone") := by
  refine ⟨?_, ?_, by decide, by decide⟩
  · intro fold cwd zones fs source destination
    rcases h : is_in_safe_zone fold cwd zones destination with _ | _
    · simp [copy_file_check, h]
    · rcases he : fs.exists_ source with _ | _ <;> simp [copy_file_check, h, he]
  · intro fold cwd zones fs source destination
    rcases h : is_in_safe_zone fold cwd zones destination with _ | _ <;>
      rcases he : fs.exists_ source with _ | _ <;> simp [copy_file_check, h, he]

/-- C3: `move_file` is denied unless both endpoints are inside some zone, and
reaches the move exactly when both are inside and the source exists; with a
source outside all zones and an in-zone destination the move is denied even
though `copy_file` with the same arguments proceeds. -/
theorem C3_move_both_endpoints :
    (∀ (fold : Char → Char) (cwd : String) (zones : List String) (fs : FS)
      (source destination : String),
      (∃ m, move_file_check fold cwd zones fs source destination = Gate.denied m) ↔
        (is_in_safe_zone fold cwd zones source = false ∨
          is_in_safe_zone fold cwd zones destination = false))
    ∧ (∀ (fold : Char → Char) (cwd : String) (zones : List String) (fs : FS)
      (source destination : String),
      move_file_check fold cwd zones fs source destination = Gate.proceed ↔
        (is_in_safe_zone fold cwd zones source = true ∧
          is_in_safe_zone fold cwd zones destination = true ∧ fs.exists_ source = true))
    ∧ move_file_check id "/" ["/zone"] fsAll "/outside/a" "/zone/b" =
        Gate.denied ("Error: Cannot move from outside safe zone.\nSource: /outside/a\n\nSafe Zones:\n  - /zone")
    ∧ copy_file_check id "/" ["/zone"] fsAll "/outside/a" "/zone/b" = Gate.proceed := by
  refine ⟨?_, ?_, by decide, by decide⟩
  · intro fold cwd zones fs source destination
    rcases hs : is_in_safe_zone fold cwd zones source with _ | _ <;>
      rcases hd : is_in_safe_zone fold cwd zones destination with _ | _ <;>
        rcases he : fs.exists_ source with _ | _ <;>
          simp [move_file_check, hs, hd, he]
  · intro fold cwd zones fs source destination
    rcases hs : is_in_safe_zone fold cwd zones source with _ | _ <;>
      rcases hd : is_in_safe_zone fold cwd zones destination with _ | _ <;>
        rcases he : fs.exists_ source with _ | _ <;>
          simp [move_file_check, hs, hd, he]

/-- C4: the `/download` handler answers 400 when the `path` parameter is
absent (whatever the filesystem or zones), 404 when the parameter names a
non-existing path (even one outside all zones — existence is checked before
zone membership), 403 when the path exists outside every zone, and otherwise
serves with status 200 and the path's base name as the attachment filename;
concretely, requesting `/etc/passwd` when it exists outside all zones yields
403. -/
theorem C4_download_serve :
    (∀ (fold : Char → Char) (home cwd : String) (sz : Option (List String)) (fs : FS),
      serve_download fold home cwd sz fs none = ⟨400, none⟩)
    ∧ (∀ (fold : Char → Char) (home cwd : String) (sz : Option (List String)) (fs : FS)
        (fp : String),
      (fs.exists_ fp = false → serve_download fold home cwd sz fs (some fp) = ⟨404, none⟩)
      ∧ (fs.exists_ fp = true → is_safe_path fold home cwd sz fp = false →
          serve_download fold home cwd sz fs (some fp) = ⟨403, none⟩)
      ∧ (fs.exists_ fp = true → is_safe_path fold home cwd sz fp = true →
          serve_download fold home cwd sz fs (some fp) = ⟨200, some (basename fp)⟩))
    ∧ serve_download id "/home/alice" "/" (some ["/home/alice/Documents"]) fsEtcPasswd
        (some "/etc/passwd") = ⟨403, none⟩ := by
  refine ⟨?_, ?_, by decide⟩
  · intro fold home cwd sz fs
    rfl
  · intro fold home cwd sz fs fp
    refine ⟨fun he => ?_, fun he hz => ?_, fun he hz => ?_⟩ <;>
      simp [serve_download, he]
    · simp [hz]
    · simp [hz]

/-- C4 witness: at the concrete 403 scenario, each hypothesis of the theorem is
discharged at `/etc/passwd`. -/
theorem C4_download_serve_witness :
    fsEtcPasswd.exists_ "/etc/passwd" = true ∧
    is_safe_path id "/home/alice" "/" (some ["/home/alice/Documents"]) "/etc/passwd" = false ∧
    serve_download id "/home/alice" "/" (some ["/home/alice/Documents"]) fsEtcPasswd
      (some "/etc/passwd") = ⟨403, none⟩ :=
  ⟨by decide, by decide,
    ((C4_download_serve.2.1 id "/home/alice" "/" (some ["/home/alice/Documents"]) fsEtcPasswd
      "/etc/passwd").2.1 (by decide) (by decide))⟩

/-- C5 counterexample: the router does not implement the claimed dispatch. The
claim requires only `/screenshots/`-terminated paths to go to static serving
with that whole segment stripped and everything else (other than `/download`)
to be forwarded; the code matches the bare `/screenshots` and removes only 12
characters, so `/screenshotsx` is served statically instead of forwarded, and
`/screenshots/shot.png` is rewritten to `/shot.png`, not `shot.png`. -/
theorem C5_router_counterexample :
    combined_route "/screenshotsx" = Route.static "x"
    ∧ spec_route "/screenshotsx" = Route.mcp
    ∧ combined_route "/screenshotsx" ≠ spec_route "/screenshotsx"
    ∧ combined_route "/screenshots/shot.png" = Route.static "/shot.png"
    ∧ spec_route "/screenshots/shot.png" = Route.static "shot.png"
    ∧ combined_route "/screenshots/shot.png" ≠ spec_route "/screenshots/shot.png" := by
  refine ⟨by decide, by decide, by decide, by decide, by decide, by decide⟩

/-- C5 (amended): the router dispatches on the bare 12-character `/screenshots`
segment — any path starting with it (a following slash is not required) goes
to static serving with exactly those 12 characters removed; the exact path
`/download` goes to the download handler; every other path is forwarded to the
agent-tool transport, and the Host-header middleware rewrites each `host`
header to the fixed `localhost:9999` while keeping every other header pair
unchanged and in place. -/
theorem C5_router_amended :
    (∀ path : String, strStartsWith path "/screenshots" = true →
      combined_route path = Route.static (strDrop path 12))
    ∧ (∀ path : String, strStartsWith path "/screenshots" = false → path ≠ "/download" →
      combined_route path = Route.mcp)
    ∧ combined_route "/download" = Route.download
    ∧ (∀ headers : List (String × String),
      List.Forall₂ (fun kv kv' : String × String =>
        (kv.1 = "host" → kv' = ("host", "localhost:9999")) ∧ (kv.1 ≠ "host" → kv' = kv))
        headers (rewrite_host headers)) := by
  refine ⟨?_, ?_, by decide, ?_⟩
  · intro path h
    simp [combined_route, h]
  · intro path h hd
    have hb : (path == "/download") = false := beq_eq_false_iff_ne.mpr hd
    simp [combined_route, h, hb]
  · intro headers
    induction headers with
    | nil => simp [rewrite_host]
    | cons kv tl ih =>
      refine List.Forall₂.cons ⟨fun h => ?_, fun h => ?_⟩ ih
      · simp [beq_iff_eq.mpr h]
      · simp [beq_eq_false_iff_ne.mpr h]

/-- C5 witness: the amended routing applied at concrete requests, discharging
each hypothesis. -/
theorem C5_router_amended_witness :
    strStartsWith "/screenshots/shot.png" "/screenshots" = true ∧
    combined_route "/screenshots/shot.png" = Route.static (strDrop "/screenshots/shot.png" 12) ∧
    strStartsWith "/sse" "/screenshots" = false ∧
    combined_route "/sse" = Route.mcp :=
  ⟨by decide, C5_router_amended.1 "/screenshots/shot.png" (by decide), by decide,
    C5_router_amended.2.1 "/sse" (by decide) (by decide)⟩

/-- C6: `get_download_url` returns an error string (starting with `Error`,
never the `Download URL: ` form) when the path does not exist, when it is a
directory rather than a file, or when it lies outside every configured zone;
otherwise it returns the fixed `/download` route on the configured base URL
with the URL-encoded path as the query parameter. -/
theorem C6_download_url :
    ∀ (fold : Char → Char) (cwd : String) (zones : List String) (base_url : String)
      (fs : FS) (path : String),
      (fs.exists_ path = false →
        strStartsWith (get_download_url fold cwd zones base_url fs path) "Error" = true ∧
        strStartsWith (get_download_url fold cwd zones base_url fs path) "Download URL: " = false)
      ∧ (fs.exists_ path = true → fs.isdir path = true → fs.isfile path = false →
        strStartsWith (get_download_url fold cwd zones base_url fs path) "Error" = true ∧
        strStartsWith (get_download_url fold cwd zones base_url fs path) "Download URL: " = false)
      ∧ (fs.exists_ path = true → fs.isfile path = true →
          is_in_safe_zone fold cwd zones path = false →
        strStartsWith (get_download_url fold cwd zones base_url fs path) "Error" = true ∧
        strStartsWith (get_download_url fold cwd zones base_url fs path) "Download URL: " = false)
      ∧ (fs.exists_ path = true → fs.isfile path = true →
          is_in_safe_zone fold cwd zones path = true →
        get_download_url fold cwd zones base_url fs path =
          "Download URL: " ++ base_url ++ "/download?path=" ++ quote path) := by
  intro fold cwd zones base_url fs path
  refine ⟨fun h1 => ?_, fun h1 h2 h3 => ?_, fun h1 h2 h3 => ?_, fun h1 h2 h3 => ?_⟩
  · simp only [get_download_url, h1, Bool.not_false, if_true]
    exact ⟨rfl, rfl⟩
  · simp only [get_download_url, h1, h3, Bool.not_true, Bool.not_false, Bool.false_eq_true,
      if_false, if_true]
    exact ⟨rfl, rfl⟩
  · simp only [get_download_url, h1, h2, h3, Bool.not_true, Bool.not_false, Bool.false_eq_true,
      if_false, if_true]
    exact ⟨rfl, rfl⟩
  · simp only [get_download_url, h1, h2, h3, Bool.not_true, Bool.false_eq_true, if_false]

/-- C6 witness: on a concrete in-zone file the URL is produced (with the space
percent-encoded), and on `/etc/passwd` outside all zones an error is produced;
each hypothesis is discharged concretely. -/
theorem C6_download_url_witness :
    fsZoneFile.exists_ "/zone/a b.txt" = true ∧
    fsZoneFile.isfile "/zone/a b.txt" = true ∧
    is_in_safe_zone id "/" ["/zone"] "/zone/a b.txt" = true ∧
    get_download_url id "/" ["/zone"] "http://localhost:9999" fsZoneFile "/zone/a b.txt" =
      "Download URL: " ++ "http://localhost:9999" ++ "/download?path=" ++ quote "/zone/a b.txt" ∧
    is_in_safe_zone id "/" ["/zone"] "/etc/passwd" = false ∧
    strStartsWith (get_download_url id "/" ["/zone"] "http://localhost:9999" fsEtcPasswd
      "/etc/passwd") "Error" = true ∧
    strStartsWith (get_download_url id "/" ["/zone"] "http://localhost:9999" fsEtcPasswd
      "/etc/passwd") "Download URL: " = false :=
  ⟨by decide, by decide, by decide,
    (C6_download_url id "/" ["/zone"] "http://localhost:9999" fsZoneFile
      "/zone/a b.txt").2.2.2 (by decide) (by decide) (by decide),
    by decide,
    ((C6_download_url id "/" ["/zone"] "http://localhost:9999" fsEtcPasswd
      "/etc/passwd").2.2.1 (by decide) (by decide) (by decide)).1,
    ((C6_download_url id "/" ["/zone"] "http://localhost:9999" fsEtcPasswd
      "/etc/passwd").2.2.1 (by decide) (by decide) (by decide)).2⟩

/-- C7: `register_file_tools` registers no tool for `write_file` — the
registered surface contains no whole-file write tool, its mutating tools being
exactly edit, move, delete, create-directory and copy — even though the
`write_file` function defined inside it carries the same safe-zone gate as the
other mutating tools. -/
theorem C7_write_file_not_registered :
    registered_file_tools.all (fun t => !(t.name == "MyPC-write_file")) = true
    ∧ (registered_file_tools.filter (fun t => t.mutating)).map (fun t => t.name) =
        ["MyPC-edit_file", "MyPC-move_file", "MyPC-delete_file", "MyPC-create_directory",
          "MyPC-copy_file"]
    ∧ (∀ (fold : Char → Char) (cwd : String) (zones : List String) (p : String),
      (∃ m, write_file_check fold cwd zones p = Gate.denied m) ↔
        is_in_safe_zone fold cwd zones (write_target p) = false) := by
  refine ⟨by decide, by decide, ?_⟩
  intro fold cwd zones p
  rcases h : is_in_safe_zone fold cwd zones (write_target p) with _ | _ <;>
    simp [write_file_check, h]

/-- C8 counterexample: the empty string does not normalize to an empty result
matching no zone — `os.path.abspath("")` is the process working directory, so
with the working directory inside (here: equal to) a configured zone the
containment check on `""` returns true. -/
theorem C8_empty_path_counterexample :
    is_in_safe_zone id "/home/alice/Documents" ["/home/alice/Documents"] "" = true
    ∧ abspath "/home/alice/Documents" "" = "/home/alice/Documents" := by
  exact ⟨by decide, by decide⟩

/-- C8 (amended): normalization is total and never fails, and the empty string
normalizes to the (absolute) process working directory, so the containment
check applied to `""` coincides with the check applied to the working
directory — false exactly when the working directory is outside every zone,
not false for every configuration. -/
theorem C8_empty_path_amended :
    ∀ (fold : Char → Char) (cwd : String) (zones : List String),
      isabs cwd = true →
      abspath cwd "" = normpath cwd
      ∧ is_in_safe_zone fold cwd zones "" = is_in_safe_zone fold cwd zones cwd := by
  intro fold cwd zones h
  have habs : abspath cwd "" = abspath cwd cwd := abspath_empty cwd h
  constructor
  · rw [habs]
    simp [abspath, h]
  · simp only [is_in_safe_zone, habs]

/-- C8 witness: the amended statement applied at a concrete absolute working
directory. -/
theorem C8_empty_path_witness :
    isabs "/home/alice" = true ∧
    abspath "/home/alice" "" = normpath "/home/alice" ∧
    is_in_safe_zone id "/home/alice" ["/zone"] "" =
      is_in_safe_zone id "/home/alice" ["/zone"] "/home/alice" :=
  ⟨by decide, (C8_empty_path_amended id "/home/alice" ["/zone"] (by decide)).1,
    (C8_empty_path_amended id "/home/alice" ["/zone"] (by decide)).2⟩

/-- C9 counterexample: for a path that neither exists nor lies in any zone,
`delete_file` (and likewise `edit_file` and `move_file`) returns the safe-zone
denial, not the path-does-not-exist failure — the permission check comes
first, contradicting the claimed existence-first order. -/
theorem C9_order_counterexample :
    delete_file_check id "/" ["/zone"] fsNone "/outside/x" =
      Gate.denied ("Error: Delete operation denied. Path must be in a safe zone.\n\nSafe Zones:\n  - /zone")
    ∧ delete_file_check id "/" ["/zone"] fsNone "/outside/x" ≠
        Gate.failed ("Error: Path does not exist: /outside/x")
    ∧ edit_file_check id "/" ["/zone"] fsNone "/outside/x" ≠
        Gate.failed ("Error: File does not exist: /outside/x")
    ∧ move_file_check id "/" ["/zone"] fsNone "/outside/x" "/zone/y" ≠
        Gate.failed ("Error: Source does not exist: /outside/x")
    ∧ fsNone.exists_ "/outside/x" = false := by decide

/-- C9 (amended): for the pre-existing-target operations (edit, move, delete)
the safe-zone permission check precedes the existence check — whenever the
path (for move: the source) is outside every zone the tool returns the
safe-zone denial, whatever the filesystem says about existence. -/
theorem C9_zone_check_precedes_existence :
    ∀ (fold : Char → Char) (cwd : String) (zones : List String) (fs : FS) (p s d : String),
      (is_in_safe_zone fold cwd zones p = false →
        edit_file_check fold cwd zones fs p =
          Gate.denied ("Error: Edit operation denied. Path must be in a safe zone.\n\nSafe Zones:\n"
            ++ get_safe_zones_str zones)
        ∧ delete_file_check fold cwd zones fs p =
          Gate.denied ("Error: Delete operation denied. Path must be in a safe zone.\n\nSafe Zones:\n"
            ++ get_safe_zones_str zones))
      ∧ (is_in_safe_zone fold cwd zones s = false →
        move_file_check fold cwd zones fs s d =
          Gate.denied ("Error: Cannot move from outside safe zone.\nSource: " ++ s
            ++ "\n\nSafe Zones:\n" ++ get_safe_zones_str zones)) := by
  intro fold cwd zones fs p s d
  constructor
  · intro h
    constructor <;> simp [edit_file_check, delete_file_check, h]
  · intro h
    simp [move_file_check, h]

/-- C9 witness: the amended order applied at a path that does not exist and is
outside all zones — the zone denial is returned. -/
theorem C9_zone_check_precedes_existence_witness :
    is_in_safe_zone id "/" ["/zone"] "/outside/x" = false ∧
    edit_file_check id "/" ["/zone"] fsNone "/outside/x" =
      Gate.denied ("Error: Edit operation denied. Path must be in a safe zone.\n\nSafe Zones:\n"
        ++ get_safe_zones_str ["/zone"]) ∧
    delete_file_check id "/" ["/zone"] fsNone "/outside/x" =
      Gate.denied ("Error: Delete operation denied. Path must be in a safe zone.\n\nSafe Zones:\n"
        ++ get_safe_zones_str ["/zone"]) ∧
    move_file_check id "/" ["/zone"] fsNone "/outside/x" "/zone/y" =
      Gate.denied ("Error: Cannot move from outside safe zone.\nSource: /outside/x"
        ++ "\n\nSafe Zones:\n" ++ get_safe_zones_str ["/zone"]) :=
  ⟨by decide,
    ((C9_zone_check_precedes_existence id "/" ["/zone"] fsNone "/outside/x" "/outside/x"
      "/zone/y").1 (by decide)).1,
    ((C9_zone_check_precedes_existence id "/" ["/zone"] fsNone "/outside/x" "/outside/x"
      "/zone/y").1 (by decide)).2,
    (C9_zone_check_precedes_existence id "/" ["/zone"] fsNone "/outside/x" "/outside/x"
      "/zone/y").2 (by decide)⟩

/-- C10: every safe-zone denial of the six mutating operations is exactly the
operation-specific requirement text (naming the offending source or
destination where the operation has one) followed by the enumeration of all
currently configured zones produced by `get_safe_zones_str`. -/
theorem C10_denials_enumerate_zones :
    ∀ (fold : Char → Char) (cwd : String) (zones : List String) (fs : FS) (p s d : String),
      (∀ m, edit_file_check fold cwd zones fs p = Gate.denied m →
        m = "Error: Edit operation denied. Path must be in a safe zone.\n\nSafe Zones:\n"
          ++ get_safe_zones_str zones)
      ∧ (∀ m, write_file_check fold cwd zones p = Gate.denied m →
        m = "Error: Write operation denied. Path must be in a safe zone.\n\nSafe Zones:\n"
          ++ get_safe_zones_str zones)
      ∧ (∀ m, move_file_check fold cwd zones fs s d = Gate.denied m →
        m = "Error: Cannot move from outside safe zone.\nSource: " ++ s
            ++ "\n\nSafe Zones:\n" ++ get_safe_zones_str zones
        ∨ m = "Error: Cannot move to outside safe zone.\nDestination: " ++ d
            ++ "\n\nSafe Zones:\n" ++ get_safe_zones_str zones)
      ∧ (∀ m, delete_file_check fold cwd zones fs p = Gate.denied m →
        m = "Error: Delete operation denied. Path must be in a safe zone.\n\nSafe Zones:\n"
          ++ get_safe_zones_str zones)
      ∧ (∀ m, create_directory_check fold cwd zones p = Gate.denied m →
        m = "Error: Create directory denied. Path must be in a safe zone.\n\nSafe Zones:\n"
          ++ get_safe_zones_str zones)
      ∧ (∀ m, copy_file_check fold cwd zones fs s d = Gate.denied m →
        m = "Error: Copy destination must be in a safe zone.\nDestination: " ++ d
          ++ "\n\nSafe Zones:\n" ++ get_safe_zones_str zones) := by
  intro fold cwd zones fs p s d
  refine ⟨?_, ?_, ?_, ?_, ?_, ?_⟩
  · intro m hm
    rcases h : is_in_safe_zone fold cwd zones p with _ | _
    · simp [edit_file_check, h] at hm
      exact hm.symm
    · rcases he : fs.exists_ p with _ | _ <;> simp [edit_file_check, h, he] at hm
  · intro m hm
    rcases h : is_in_safe_zone fold cwd zones (write_target p) with _ | _ <;>
      simp [write_file_check, h] at hm
    exact hm.symm
  · intro m hm
    rcases hs : is_in_safe_zone fold cwd zones s with _ | _
    · simp [move_file_check, hs] at hm
      exact Or.inl hm.symm
    · rcases hd : is_in_safe_zone fold cwd zones d with _ | _
      · simp [move_file_check, hs, hd] at hm
        exact Or.inr hm.symm
      · rcases he : fs.exists_ s with _ | _ <;> simp [move_file_check, hs, hd, he] at hm
  · intro m hm
    rcases h : is_in_safe_zone fold cwd zones p with _ | _
    · simp [delete_file_check, h] at hm
      exact hm.symm
    · rcases he : fs.exists_ p with _ | _ <;> simp [delete_file_check, h, he] at hm
  · intro m hm
    rcases h : is_in_safe_zone fold cwd zones (if isabs p then p else pathJoin DEFAULT_WORKSPACE p)
        with _ | _ <;> simp [create_directory_check, h] at hm
    exact hm.symm
  · intro m hm
    rcases h : is_in_safe_zone fold cwd zones d with _ | _
    · simp [copy_file_check, h] at hm
      exact hm.symm
    · rcases he : fs.exists_ s with _ | _ <;> simp [copy_file_check, h, he] at hm

/-- C10 witness: the six denial messages at concrete all-outside inputs, each
hypothesis discharged by evaluation. -/
theorem C10_denials_enumerate_zones_witness :
    ("Error: Edit operation denied. Path must be in a safe zone.\n\nSafe Zones:\n  - /zone"
      = "Error: Edit operation denied. Path must be in a safe zone.\n\nSafe Zones:\n"
        ++ get_safe_zones_str ["/zone"])
    ∧ ("Error: Write operation denied. Path must be in a safe zone.\n\nSafe Zones:\n  - /zone"
      = "Error: Write operation denied. Path must be in a safe zone.\n\nSafe Zones:\n"
        ++ get_safe_zones_str ["/zone"])
    ∧ ("Error: Cannot move from outside safe zone.\nSource: /outside/a\n\nSafe Zones:\n  - /zone"
        = "Error: Cannot move from outside safe zone.\nSource: " ++ "/outside/a"
          ++ "\n\nSafe Zones:\n" ++ get_safe_zones_str ["/zone"]
      ∨ "Error: Cannot move from outside safe zone.\nSource: /outside/a\n\nSafe Zones:\n  - /zone"
        = "Error: Cannot move to outside safe zone.\nDestination: " ++ "/outside/b"
          ++ "\n\nSafe Zones:\n" ++ get_safe_zones_str ["/zone"])
    ∧ ("Error: Delete operation denied. Path must be in a safe zone.\n\nSafe Zones:\n  - /zone"
      = "Error: Delete operation denied. Path must be in a safe zone.\n\nSafe Zones:\n"
        ++ get_safe_zones_str ["/zone"])
    ∧ ("Error: Create directory denied. Path must be in a safe zone.\n\nSafe Zones:\n  - /zone"
      = "Error: Create directory denied. Path must be in a safe zone.\n\nSafe Zones:\n"
        ++ get_safe_zones_str ["/zone"])
    ∧ ("Error: Copy destination must be in a safe zone.\nDestination: /outside/b\n\nSafe Zones:\n  - /zone"
      = "Error: Copy destination must be in a safe zone.\nDestination: " ++ "/outside/b"
        ++ "\n\nSafe Zones:\n" ++ get_safe_zones_str ["/zone"]) :=
  ⟨(C10_denials_enumerate_zones id "/" ["/zone"] fsAll "/outside/x" "/outside/a" "/outside/b").1
      _ (by decide),
    (C10_denials_enumerate_zones id "/" ["/zone"] fsAll "/outside/x" "/outside/a" "/outside/b").2.1
      _ (by decide),
    (C10_denials_enumerate_zones id "/" ["/zone"] fsAll "/outside/x" "/outside/a" "/outside/b").2.2.1
      _ (by decide),
    (C10_denials_enumerate_zones id "/" ["/zone"] fsAll "/outside/x" "/outside/a" "/outside/b").2.2.2.1
      _ (by decide),
    (C10_denials_enumerate_zones id "/" ["/zone"] fsAll "/outside/x" "/outside/a" "/outside/b").2.2.2.2.1
      _ (by decide),
    (C10_denials_enumerate_zones id "/" ["/zone"] fsAll "/outside/x" "/outside/a" "/outside/b").2.2.2.2.2
      _ (by decide)⟩

end MyPC
